import Mathlib

/-
Verification development for the mindenu-backend repository.

The development shallowly embeds the parts of the code that the checked
properties talk about:

* `Mindenu.Server` — the `/v1/chat` handler of `server.js`
  (build "server.js-v6-speed-tuned"): the confirmation branch, the
  in-memory pending-action map with its TTL, the in-memory provider-token
  store (`tokenStore.js`, the in-memory variant), the LLM-response
  extraction helpers, and the proposal-to-pending transition.
  The provider-context fetch (cache plus network reads, server.js lines
  374-416) is abstracted into the `ctxProvider` argument, and the OpenAI
  call itself into the `llm : LlmOut` argument, since both are opaque
  network calls; neither touches the pending slot or the token store.
* `Mindenu.Store` — the Firestore-backed `tokenStore.js` and
  `firebaseAdmin.js` persistence functions, with Firestore
  `set(..., { merge: true })` modelled as a field-wise merge on the
  flat documents this code writes.
* `Mindenu.V7` — the v7 chat server (tool loop): `buildTools`,
  `dispatchToolCall`, `executePendingAction`, `runChatWithTools`, with
  the per-step OpenAI responses supplied by an oracle.
* `Mindenu.B64` — `base64UrlEncode` and the raw MIME construction of
  `googleSendEmail` from `providerClients.js`, over UTF-8 byte lists.
-/

namespace Mindenu

/-- Association-list lookup: first binding wins (models `Map.get`). -/
def lookupA {κ α : Type} [DecidableEq κ] : List (κ × α) → κ → Option α
  | [], _ => none
  | (k, v) :: rest, key => if k = key then some v else lookupA rest key

/-- Association-list insert: models `Map.set` (replaces any old binding). -/
def insertA {κ α : Type} [DecidableEq κ] (m : List (κ × α)) (key : κ) (v : α) :
    List (κ × α) :=
  (key, v) :: m

/-- Association-list removal: models `Map.delete`. -/
def eraseA {κ α : Type} [DecidableEq κ] : List (κ × α) → κ → List (κ × α)
  | [], _ => []
  | (k, v) :: rest, key =>
      if k = key then eraseA rest key else (k, v) :: eraseA rest key

theorem lookupA_insertA_self {κ α : Type} [DecidableEq κ]
    (m : List (κ × α)) (key : κ) (v : α) :
    lookupA (insertA m key v) key = some v := by
  simp [lookupA, insertA]

theorem lookupA_eraseA_self {κ α : Type} [DecidableEq κ]
    (m : List (κ × α)) (key : κ) :
    lookupA (eraseA m key) key = none := by
  induction m with
  | nil => rfl
  | cons kv rest ih =>
      obtain ⟨k, v⟩ := kv
      by_cases h : k = key
      · simpa [eraseA, h] using ih
      · simpa [eraseA, lookupA, h] using ih

end Mindenu

namespace Mindenu.Server

/-- JS truthiness on an optional string: `undefined`, `null` and `""` are
falsy; any other string is truthy. -/
def truthy (s : Option String) : Option String :=
  match s with
  | none => none
  | some s => if s = "" then none else some s

/-- Leading- and trailing-whitespace trim on a character list (JS
`String.prototype.trim`). -/
def trimChars (cs : List Char) : List Char :=
  ((cs.dropWhile Char.isWhitespace).reverse.dropWhile Char.isWhitespace).reverse

/-- Trailing-sentence-punctuation test for `normalizeCommand`'s regex
`/[.!?]+$/`. -/
def isEndPunct (c : Char) : Bool :=
  c = '.' || c = '!' || c = '?'

/-- `normalizeCommand` (server.js lines 156-161): trim, lowercase, strip
trailing `.`/`!`/`?` runs. -/
def normalizeCommand (text : String) : String :=
  ⟨(((trimChars text.data).map Char.toLower).reverse.dropWhile isEndPunct).reverse⟩

end Mindenu.Server

namespace Mindenu.Server

/-- Trim of a whole string (JS `.trim()`). -/
def strTrim (s : String) : String :=
  ⟨trimChars s.data⟩

/-- A chat message from the request body (`{role, text}`). -/
structure ChatMsg where
  role : String
  text : String
deriving DecidableEq, Repr

/-- `messages[messages.length - 1]?.text ?? ""`. -/
def lastTextOf (msgs : List ChatMsg) : String :=
  match msgs.getLast? with
  | some m => m.text
  | none => ""

/-- The payload object of a pending action.  A JS object can carry any of
these fields; the email branches read `to`/`subject`/`bodyText` and the
event branches read `title`/`startISO`/`endISO`/`description`/`location`/
`attendees`. -/
structure Payload where
  «to» : String := ""
  subject : String := ""
  bodyText : String := ""
  title : String := ""
  startISO : String := ""
  endISO : String := ""
  description : String := ""
  location : String := ""
  attendees : List String := []
deriving DecidableEq, Repr

/-- A stored pending action: `{ ts, type, provider, payload }`
(`pendingActions` map of server.js). -/
structure PendingRec where
  ts : Nat
  kind : String
  provider : String
  payload : Payload
deriving DecidableEq, Repr

/-- The `{type, provider, payload}` object passed to `setPending`. -/
structure PendingSpec where
  kind : String
  provider : String
  payload : Payload
deriving DecidableEq, Repr

/-- A stored provider-token record; the chat handler only inspects
`access_token` (`tokens?.access_token`). -/
structure Tokens where
  access_token : Option String := none
deriving DecidableEq, Repr

/-- The per-process mutable state the chat handler touches: the
`pendingActions` map (uid-keyed) and the in-memory token store of
`tokenStore.js` (keyed by uid and provider). -/
structure ServerState where
  pendingActions : List (String × PendingRec) := []
  providerTokens : List ((String × String) × Tokens) := []
deriving DecidableEq, Repr

/-- `getProviderTokens(uid, provider)` of the in-memory token store:
`store.get(key) || null`. -/
def getProviderTokens (st : ServerState) (uid provider : String) : Option Tokens :=
  lookupA st.providerTokens (uid, provider)

/-- `setProviderTokens(uid, provider, tokens)` of the in-memory token
store: `store.set(key, {...tokens, updatedAt})`, a wholesale replace. -/
def setProviderTokens (st : ServerState) (uid provider : String) (t : Tokens) :
    ServerState :=
  { st with providerTokens := insertA st.providerTokens (uid, provider) t }

/-- `tokens?.access_token` truthiness: the access token of an optional
token record, treating a missing record or an empty token as absent. -/
def accessTokenOf (t : Option Tokens) : Option String :=
  match t with
  | none => none
  | some tk => truthy tk.access_token

/-- `PENDING_ACTION_TTL_MS = 10 * 60_000`. -/
def PENDING_ACTION_TTL_MS : Nat := 600000

/-- `setPending(uid, action)`: `pendingActions.set(uid, { ts: nowMs(), ...action })`. -/
def setPending (st : ServerState) (uid : String) (now : Nat) (a : PendingSpec) :
    ServerState :=
  { st with
    pendingActions :=
      insertA st.pendingActions uid
        { ts := now, kind := a.kind, provider := a.provider, payload := a.payload } }

/-- `getPending(uid)`: returns the stored record, lazily deleting it when
older than the TTL; the possibly-updated map is returned alongside. -/
def getPending (st : ServerState) (uid : String) (now : Nat) :
    Option PendingRec × ServerState :=
  match lookupA st.pendingActions uid with
  | none => (none, st)
  | some p =>
      if now - p.ts > PENDING_ACTION_TTL_MS then
        (none, { st with pendingActions := eraseA st.pendingActions uid })
      else (some p, st)

/-- `clearPending(uid)`: `pendingActions.delete(uid)`. -/
def clearPending (st : ServerState) (uid : String) : ServerState :=
  { st with pendingActions := eraseA st.pendingActions uid }

/-- A parsed tool-call arguments object.  `none` in a field models an
absent JSON key; a whole-object `none` upstream models `parseArgs`
returning `null` on malformed JSON. -/
structure ArgsObj where
  provider : Option String := none
  «to» : Option String := none
  subject : Option String := none
  bodyText : Option String := none
  title : Option String := none
  startISO : Option String := none
  endISO : Option String := none
  description : Option String := none
  location : Option String := none
  attendees : Option (List String) := none
deriving DecidableEq, Repr

/-- One content part of an assistant `message` output item. -/
inductive ContentPart where
  | outputText (text : String)
  | refusal (text : String)
  | otherPart
deriving DecidableEq, Repr

/-- One item of the OpenAI Responses `output` array. -/
inductive OutItem where
  | message (content : List ContentPart)
  | functionCall (name : String) (arguments : Option ArgsObj)
  | otherItem
deriving DecidableEq, Repr

end Mindenu.Server

namespace Mindenu.Server

/-- A function call extracted from the OpenAI response:
`{ name, arguments }`, with `arguments` already put through `parseArgs`
(`none` = `null`: absent or malformed JSON). -/
structure FunctionCall where
  name : String
  arguments : Option ArgsObj
deriving DecidableEq, Repr

/-- The OpenAI Responses payload as far as server.js inspects it:
the convenience `output_text` field and the `output` item array. -/
structure LlmOut where
  output_text : Option String := none
  output : List OutItem := []
deriving DecidableEq, Repr

/-- The text chunks `extractAssistantText` collects from one output item. -/
def itemChunks : OutItem → List String
  | .message content =>
      content.filterMap fun c =>
        match c with
        | .outputText t => some t
        | .refusal t => some t
        | .otherPart => none
  | _ => []

/-- `extractAssistantText(openaiResponse)` (server.js lines 104-127). -/
def extractAssistantText (o : LlmOut) : String :=
  match o.output_text with
  | some t => if strTrim t ≠ "" then strTrim t else strTrim (String.intercalate "\n" (o.output.map itemChunks).flatten)
  | none => strTrim (String.intercalate "\n" (o.output.map itemChunks).flatten)

/-- `extractFunctionCalls(openaiResponse)` (server.js lines 129-143). -/
def extractFunctionCalls (o : LlmOut) : List FunctionCall :=
  o.output.filterMap fun item =>
    match item with
    | .functionCall n a => some ⟨n, a⟩
    | _ => none

/-- `a || b` on strings: `a` unless it is absent or empty. -/
def jsOr (a : Option String) (b : String) : String :=
  match truthy a with
  | some s => s
  | none => b

/-- `toolCallsToFallbackText(functionCalls)` (server.js lines 174-218). -/
def toolCallsToFallbackText (functionCalls : List FunctionCall) : String :=
  match functionCalls with
  | [] => ""
  | first :: _ =>
      let args := first.arguments.getD {}
      if first.name = "propose_email" then
        String.intercalate "\n"
          [ "Here’s a draft email for your approval:", "",
            "To: " ++ jsOr args.«to» "(missing recipient)",
            "Subject: " ++ jsOr args.subject "(no subject)", "",
            jsOr args.bodyText "(no body)", "",
            "Reply with: \"Send it\" to send, or tell me what to change." ]
      else if first.name = "propose_calendar_event" then
        String.intercalate "\n"
          (([ "Here’s a calendar event proposal for your approval:", "",
              "Title: " ++ jsOr args.title "(no title)",
              "Start: " ++ jsOr args.startISO "(missing start)",
              "End: " ++ jsOr args.endISO "(missing end)",
              (match truthy args.location with
               | some l => "Location: " ++ l
               | none => ""),
              (match truthy args.description with
               | some d => "Notes: " ++ d
               | none => ""), "",
              "Reply with: \"Create it\" to create the event, or tell me what to change." ]).filter
            (fun s => s ≠ ""))
      else
        "I prepared an action proposal (" ++ first.name ++ "). Please confirm or tell me changes."

/-- A provider-adapter mutation call made while handling `/v1/chat`. -/
inductive AdapterCall where
  | googleSendEmail (accessToken : String) (payload : Payload)
  | msSendEmail (accessToken : String) (payload : Payload)
  | googleCreateCalendarEvent (accessToken : String) (payload : Payload)
  | msCreateCalendarEvent (accessToken : String) (payload : Payload)
deriving DecidableEq, Repr

/-- The payload an adapter call carries. -/
def AdapterCall.payload : AdapterCall → Payload
  | .googleSendEmail _ p => p
  | .msSendEmail _ p => p
  | .googleCreateCalendarEvent _ p => p
  | .msCreateCalendarEvent _ p => p

/-- The access token an adapter call carries. -/
def AdapterCall.accessToken : AdapterCall → String
  | .googleSendEmail a _ => a
  | .msSendEmail a _ => a
  | .googleCreateCalendarEvent a _ => a
  | .msCreateCalendarEvent a _ => a

/-- The JSON envelope `/v1/chat` answers with, as far as the checked
properties observe it. -/
structure ChatResponse where
  status : Nat
  ok : Bool
  assistantText : Option String := none
  error : Option String := none
  details : Option String := none
deriving DecidableEq, Repr

/-- What one `/v1/chat` request did: the HTTP response, the state left
behind, the provider-adapter mutation calls made, and whether the OpenAI
gateway was invoked. -/
structure ChatOutcome where
  response : ChatResponse
  state : ServerState
  adapterCalls : List AdapterCall
  llmCalled : Bool
deriving DecidableEq, Repr

/-- server.js line 295. -/
def nothingPendingText : String :=
  "I don’t have a pending action to confirm. Ask me to draft an email or propose a calendar event first."

/-- server.js line 317. -/
def notEmailText : String :=
  "Your last pending action is not an email. Reply \"Create it\" for calendar events."

/-- server.js line 347. -/
def notEventText : String :=
  "Your last pending action is not a calendar event. Reply \"Send it\" for email drafts."

/-- server.js line 336. -/
def sentText (p : Payload) : String :=
  "✅ Sent.\n\nTo: " ++ p.«to» ++ "\nSubject: " ++ p.subject

/-- server.js line 366. -/
def createdText (p : Payload) : String :=
  "✅ Calendar event created.\n\nTitle: " ++ p.title ++ "\nStart: " ++ p.startISO ++ "\nEnd: " ++ p.endISO

/-- A 200 `{ok: true, assistantText}` reply. -/
def okText (t : String) : ChatResponse :=
  { status := 200, ok := true, assistantText := some t }

/-- The confirmation branch of `/v1/chat` (server.js lines 288-372),
entered when the normalized last message is `"send it"` or
`"create it"`.  Inside the branch the two inner `if` statements are
exhaustive, so the `else` of the `"send it"` test is the `"create it"`
case. -/
def confirmOutcome (st : ServerState) (uid : String) (now : Nat) (cmd : String) :
    ChatOutcome :=
  let gp := getPending st uid now
  match gp.1 with
  | none =>
      { response := okText nothingPendingText, state := gp.2,
        adapterCalls := [], llmCalled := false }
  | some pending =>
      match accessTokenOf (getProviderTokens gp.2 uid pending.provider) with
      | none =>
          { response :=
              { status := 400, ok := false, error := some "not_connected",
                details := some ("No access token found for provider: " ++ pending.provider) },
            state := clearPending gp.2 uid, adapterCalls := [], llmCalled := false }
      | some tok =>
          if cmd = "send it" then
            if pending.kind ≠ "email" then
              { response := okText notEmailText, state := gp.2,
                adapterCalls := [], llmCalled := false }
            else if pending.provider = "google" then
              { response := okText (sentText pending.payload),
                state := clearPending gp.2 uid,
                adapterCalls := [.googleSendEmail tok pending.payload], llmCalled := false }
            else if pending.provider = "microsoft" then
              { response := okText (sentText pending.payload),
                state := clearPending gp.2 uid,
                adapterCalls := [.msSendEmail tok pending.payload], llmCalled := false }
            else
              { response := { status := 400, ok := false, error := some "bad_request",
                              details := some "Unknown provider" },
                state := gp.2, adapterCalls := [], llmCalled := false }
          else
            if pending.kind ≠ "event" then
              { response := okText notEventText, state := gp.2,
                adapterCalls := [], llmCalled := false }
            else if pending.provider = "google" then
              { response := okText (createdText pending.payload),
                state := clearPending gp.2 uid,
                adapterCalls := [.googleCreateCalendarEvent tok pending.payload], llmCalled := false }
            else if pending.provider = "microsoft" then
              { response := okText (createdText pending.payload),
                state := clearPending gp.2 uid,
                adapterCalls := [.msCreateCalendarEvent tok pending.payload], llmCalled := false }
            else
              { response := { status := 400, ok := false, error := some "bad_request",
                              details := some "Unknown provider" },
                state := gp.2, adapterCalls := [], llmCalled := false }

/-- The post-LLM part of `/v1/chat` (server.js lines 498-552): extract
text and function calls, fall back to a canned proposal text, store a
pending action when the first call is a proposal, and reply. -/
def llmOutcome (st : ServerState) (uid : String) (now : Nat)
    (ctxProvider : Option String) (llm : LlmOut) : ChatOutcome :=
  let functionCalls := extractFunctionCalls llm
  let text0 := extractAssistantText llm
  let assistantText := if text0 = "" then toolCallsToFallbackText functionCalls else text0
  let st' :=
    match functionCalls with
    | [] => st
    | first :: _ =>
        let args := first.arguments.getD {}
        if first.name = "propose_email" then
          setPending st uid now
            { kind := "email",
              provider := jsOr args.provider (jsOr ctxProvider "google"),
              payload :=
                { «to» := args.«to».getD "", subject := args.subject.getD "",
                  bodyText := args.bodyText.getD "" } }
        else if first.name = "propose_calendar_event" then
          setPending st uid now
            { kind := "event",
              provider := jsOr args.provider (jsOr ctxProvider "google"),
              payload :=
                { title := args.title.getD "", startISO := args.startISO.getD "",
                  endISO := args.endISO.getD "", description := args.description.getD "",
                  location := args.location.getD "", attendees := args.attendees.getD [] } }
        else st
  { response := okText assistantText, state := st',
    adapterCalls := [], llmCalled := true }

/-- The `/v1/chat` handler (server.js lines 267-562).  `body` is the
request's `messages` field (`none` when it is not an array);
`ctxProvider` is the connected-provider value the cache/fetch section
computes (lines 374-416, abstracted: it makes only read calls and never
touches the pending slot or the token store); `llm` is the OpenAI
response. -/
def chatHandler (st : ServerState) (uid : String) (now : Nat)
    (body : Option (List ChatMsg)) (ctxProvider : Option String) (llm : LlmOut) :
    ChatOutcome :=
  match body with
  | none =>
      { response := { status := 400, ok := false, error := some "bad_request",
                      details := some "messages must be an array" },
        state := st, adapterCalls := [], llmCalled := false }
  | some messages =>
      let cmd := normalizeCommand (lastTextOf messages)
      if cmd = "send it" ∨ cmd = "create it" then
        confirmOutcome st uid now cmd
      else
        llmOutcome st uid now ctxProvider llm

end Mindenu.Server

namespace Mindenu.Server

theorem getPending_eq_some {st : ServerState} {uid : String} {now : Nat} {p : PendingRec}
    (hp : lookupA st.pendingActions uid = some p)
    (hfresh : ¬ now - p.ts > PENDING_ACTION_TTL_MS) :
    getPending st uid now = (some p, st) := by
  simp [getPending, hp, hfresh]

theorem getPending_of_lookup_none {st : ServerState} {uid : String} (now : Nat)
    (h : lookupA st.pendingActions uid = none) :
    getPending st uid now = (none, st) := by
  simp [getPending, h]

/-- C1: with an unexpired pending action of a confirmable type whose
provider is connected, the matching confirmation phrase triggers exactly
one adapter call carrying the pending payload and empties the pending
slot; an immediately following identical confirmation request makes no
adapter call and answers that nothing is pending. -/
theorem pending_confirmation_executes_at_most_once
    (st : ServerState) (uid : String) (now : Nat) (msgs : List ChatMsg)
    (ctx : Option String) (llm : LlmOut) (p : PendingRec) (a : String)
    (hp : lookupA st.pendingActions uid = some p)
    (hfresh : ¬ now - p.ts > PENDING_ACTION_TTL_MS)
    (hmatch : (p.kind = "email" ∧ normalizeCommand (lastTextOf msgs) = "send it") ∨
              (p.kind = "event" ∧ normalizeCommand (lastTextOf msgs) = "create it"))
    (hprov : p.provider = "google" ∨ p.provider = "microsoft")
    (htok : accessTokenOf (getProviderTokens st uid p.provider) = some a) :
    (chatHandler st uid now (some msgs) ctx llm).adapterCalls.length = 1 ∧
    (∀ c ∈ (chatHandler st uid now (some msgs) ctx llm).adapterCalls,
        c.payload = p.payload ∧ c.accessToken = a) ∧
    lookupA (chatHandler st uid now (some msgs) ctx llm).state.pendingActions uid = none ∧
    (chatHandler st uid now (some msgs) ctx llm).llmCalled = false ∧
    (∀ (now2 : Nat) (ctx2 : Option String) (llm2 : LlmOut),
      (chatHandler (chatHandler st uid now (some msgs) ctx llm).state uid now2
          (some msgs) ctx2 llm2).adapterCalls = [] ∧
      (chatHandler (chatHandler st uid now (some msgs) ctx llm).state uid now2
          (some msgs) ctx2 llm2).response.assistantText = some nothingPendingText) := by
  have hgp := getPending_eq_some hp hfresh
  rcases hmatch with ⟨hk, hcmd⟩ | ⟨hk, hcmd⟩ <;> rcases hprov with hpr | hpr <;>
    rw [hpr] at htok <;>
    simp [chatHandler, hcmd, confirmOutcome, hgp, getPending_of_lookup_none, hk, hpr, htok,
      clearPending, lookupA_eraseA_self, okText, AdapterCall.payload, AdapterCall.accessToken]

/-- Witness for the C1 theorem at a concrete state: a pending Google
email with a stored access token and the message `"Send it."`. -/
theorem pending_confirmation_executes_at_most_once_witness :
    (chatHandler
        { pendingActions :=
            [("u", { ts := 0, kind := "email", provider := "google",
                     payload := { «to» := "a@b.com", subject := "Hi", bodyText := "Hello" } })],
          providerTokens := [(("u", "google"), { access_token := some "tok" })] }
        "u" 5
        (some [{ role := "user", text := "Send it." }]) none {}).adapterCalls.length = 1 ∧
    lookupA (chatHandler
        { pendingActions :=
            [("u", { ts := 0, kind := "email", provider := "google",
                     payload := { «to» := "a@b.com", subject := "Hi", bodyText := "Hello" } })],
          providerTokens := [(("u", "google"), { access_token := some "tok" })] }
        "u" 5
        (some [{ role := "user", text := "Send it." }]) none {}).state.pendingActions "u" = none := by
  have h := pending_confirmation_executes_at_most_once
    { pendingActions :=
        [("u", { ts := 0, kind := "email", provider := "google",
                 payload := { «to» := "a@b.com", subject := "Hi", bodyText := "Hello" } })],
      providerTokens := [(("u", "google"), { access_token := some "tok" })] }
    "u" 5 [{ role := "user", text := "Send it." }] none {}
    { ts := 0, kind := "email", provider := "google",
      payload := { «to» := "a@b.com", subject := "Hi", bodyText := "Hello" } }
    "tok" (by decide) (by decide) (Or.inl ⟨rfl, by decide⟩) (Or.inl rfl) (by decide)
  exact ⟨h.1, h.2.2.1⟩

end Mindenu.Server

namespace Mindenu.Server

/-- C3: with an unexpired pending action whose provider is connected, a
confirmation phrase of the wrong family makes no adapter call, answers
with the clarifying message for that phrase, and leaves the state — in
particular the pending slot — exactly as it was. -/
theorem mismatched_confirmation_preserves_pending
    (st : ServerState) (uid : String) (now : Nat) (msgs : List ChatMsg)
    (ctx : Option String) (llm : LlmOut) (p : PendingRec) (a : String)
    (hp : lookupA st.pendingActions uid = some p)
    (hfresh : ¬ now - p.ts > PENDING_ACTION_TTL_MS)
    (htok : accessTokenOf (getProviderTokens st uid p.provider) = some a)
    (hmm : (normalizeCommand (lastTextOf msgs) = "send it" ∧ p.kind ≠ "email") ∨
           (normalizeCommand (lastTextOf msgs) = "create it" ∧ p.kind ≠ "event")) :
    (chatHandler st uid now (some msgs) ctx llm).adapterCalls = [] ∧
    (chatHandler st uid now (some msgs) ctx llm).llmCalled = false ∧
    (chatHandler st uid now (some msgs) ctx llm).state = st ∧
    lookupA (chatHandler st uid now (some msgs) ctx llm).state.pendingActions uid = some p ∧
    (normalizeCommand (lastTextOf msgs) = "send it" →
      (chatHandler st uid now (some msgs) ctx llm).response.assistantText = some notEmailText) ∧
    (normalizeCommand (lastTextOf msgs) = "create it" →
      (chatHandler st uid now (some msgs) ctx llm).response.assistantText = some notEventText) := by
  have hgp := getPending_eq_some hp hfresh
  rcases hmm with ⟨hcmd, hk⟩ | ⟨hcmd, hk⟩ <;>
    simp [chatHandler, hcmd, confirmOutcome, hgp, hk, htok, okText, hp]

/-- Witness for the C3 theorem: a pending Google calendar event and the
message `"Send it"`. -/
theorem mismatched_confirmation_preserves_pending_witness :
    (chatHandler
        { pendingActions :=
            [("u", { ts := 0, kind := "event", provider := "google",
                     payload := { title := "Standup", startISO := "s", endISO := "e" } })],
          providerTokens := [(("u", "google"), { access_token := some "tok" })] }
        "u" 5 (some [{ role := "user", text := "Send it" }]) none {}).adapterCalls = [] ∧
    lookupA (chatHandler
        { pendingActions :=
            [("u", { ts := 0, kind := "event", provider := "google",
                     payload := { title := "Standup", startISO := "s", endISO := "e" } })],
          providerTokens := [(("u", "google"), { access_token := some "tok" })] }
        "u" 5 (some [{ role := "user", text := "Send it" }]) none {}).state.pendingActions "u" =
      some { ts := 0, kind := "event", provider := "google",
             payload := { title := "Standup", startISO := "s", endISO := "e" } } := by
  have h := mismatched_confirmation_preserves_pending
    { pendingActions :=
        [("u", { ts := 0, kind := "event", provider := "google",
                 payload := { title := "Standup", startISO := "s", endISO := "e" } })],
      providerTokens := [(("u", "google"), { access_token := some "tok" })] }
    "u" 5 [{ role := "user", text := "Send it" }] none {}
    { ts := 0, kind := "event", provider := "google",
      payload := { title := "Standup", startISO := "s", endISO := "e" } }
    "tok" (by decide) (by decide) (by decide) (Or.inl ⟨by decide, by decide⟩)
  exact ⟨h.1, h.2.2.2.1⟩

/-- C4 counterexample: `"Delete it."` normalizes to the confirmation
phrase `"delete it"`, yet the chat handler does not resolve it locally —
it invokes the LLM gateway (and here no pending action exists, so the
spec would demand a local "nothing pending" reply without an LLM call). -/
theorem delete_it_reaches_the_llm :
    normalizeCommand "Delete it." = "delete it" ∧
    (chatHandler { pendingActions := [], providerTokens := [] } "u" 0
        (some [{ role := "user", text := "Delete it." }]) none {}).llmCalled = true := by
  decide

/-- C4 (amended): only `"send it"` and `"create it"` are resolved locally
without invoking the LLM gateway; a message normalizing to `"delete it"`
is not intercepted and always reaches the LLM. -/
theorem confirmation_phrases_resolved_locally
    (st : ServerState) (uid : String) (now : Nat) (msgs : List ChatMsg)
    (ctx : Option String) (llm : LlmOut) :
    ((normalizeCommand (lastTextOf msgs) = "send it" ∨
      normalizeCommand (lastTextOf msgs) = "create it") →
      (chatHandler st uid now (some msgs) ctx llm).llmCalled = false) ∧
    (normalizeCommand (lastTextOf msgs) = "delete it" →
      (chatHandler st uid now (some msgs) ctx llm).llmCalled = true) := by
  constructor
  · intro h
    have hconf : ∀ cmd, (confirmOutcome st uid now cmd).llmCalled = false := by
      intro cmd
      simp only [confirmOutcome]
      repeat' split
      all_goals rfl
    simp [chatHandler, h, hconf]
  · intro h
    simp [chatHandler, h, llmOutcome]

/-- Witness for the amended C4 theorem: `"Create it!"` resolves locally,
`"Delete it"` goes to the LLM. -/
theorem confirmation_phrases_resolved_locally_witness :
    (chatHandler { pendingActions := [], providerTokens := [] } "u" 0
        (some [{ role := "user", text := "Create it!" }]) none {}).llmCalled = false ∧
    (chatHandler { pendingActions := [], providerTokens := [] } "u" 0
        (some [{ role := "user", text := "Delete it" }]) none {}).llmCalled = true := by
  constructor
  · exact (confirmation_phrases_resolved_locally
      { pendingActions := [], providerTokens := [] } "u" 0
      [{ role := "user", text := "Create it!" }] none {}).1 (Or.inr (by decide))
  · exact (confirmation_phrases_resolved_locally
      { pendingActions := [], providerTokens := [] } "u" 0
      [{ role := "user", text := "Delete it" }] none {}).2 (by decide)

/-- C6 failing input: when the OpenAI response carries neither output
text nor any function call, the fallback `toolCallsToFallbackText([])`
is `""`, so the successful response carries an empty `assistantText` —
contradicting the "Always return something the UI can render" intent. -/
theorem silent_llm_yields_empty_assistant_text :
    (chatHandler { pendingActions := [], providerTokens := [] } "u" 0
        (some [{ role := "user", text := "hello" }]) none
        { output_text := none, output := [] }).response.ok = true ∧
    (chatHandler { pendingActions := [], providerTokens := [] } "u" 0
        (some [{ role := "user", text := "hello" }]) none
        { output_text := none, output := [] }).response.assistantText = some "" := by
  decide

/-- C10: a confirmation phrase with an unexpired pending action but no
stored access token for its provider yields the 400 `not_connected`
error with the pending slot already cleared; after the provider is
reconnected, re-sending the same confirmation phrase makes no adapter
call and reports that nothing is pending. -/
theorem not_connected_clears_pending
    (st : ServerState) (uid : String) (now : Nat) (msgs : List ChatMsg)
    (ctx : Option String) (llm : LlmOut) (p : PendingRec)
    (hp : lookupA st.pendingActions uid = some p)
    (hfresh : ¬ now - p.ts > PENDING_ACTION_TTL_MS)
    (hcmd : normalizeCommand (lastTextOf msgs) = "send it" ∨
            normalizeCommand (lastTextOf msgs) = "create it")
    (htok : accessTokenOf (getProviderTokens st uid p.provider) = none) :
    (chatHandler st uid now (some msgs) ctx llm).response.status = 400 ∧
    (chatHandler st uid now (some msgs) ctx llm).response.error = some "not_connected" ∧
    (chatHandler st uid now (some msgs) ctx llm).adapterCalls = [] ∧
    lookupA (chatHandler st uid now (some msgs) ctx llm).state.pendingActions uid = none ∧
    (∀ (now2 : Nat) (ctx2 : Option String) (llm2 : LlmOut) (prov : String) (tok : Tokens),
      (chatHandler
          (setProviderTokens (chatHandler st uid now (some msgs) ctx llm).state uid prov tok)
          uid now2 (some msgs) ctx2 llm2).adapterCalls = [] ∧
      (chatHandler
          (setProviderTokens (chatHandler st uid now (some msgs) ctx llm).state uid prov tok)
          uid now2 (some msgs) ctx2 llm2).response.assistantText = some nothingPendingText) := by
  have hgp := getPending_eq_some hp hfresh
  rcases hcmd with hcmd | hcmd <;>
    simp [chatHandler, hcmd, confirmOutcome, hgp, htok, okText, clearPending,
      setProviderTokens, getPending_of_lookup_none, lookupA_eraseA_self]

/-- Witness for the C10 theorem: a pending Google email, no Google
token stored, message `"Send it"`; reconnect stores a token. -/
theorem not_connected_clears_pending_witness :
    (chatHandler
        { pendingActions :=
            [("u", { ts := 0, kind := "email", provider := "google",
                     payload := { «to» := "a@b.com" } })],
          providerTokens := [] }
        "u" 5 (some [{ role := "user", text := "Send it" }]) none {}).response.error =
      some "not_connected" ∧
    lookupA (chatHandler
        { pendingActions :=
            [("u", { ts := 0, kind := "email", provider := "google",
                     payload := { «to» := "a@b.com" } })],
          providerTokens := [] }
        "u" 5 (some [{ role := "user", text := "Send it" }]) none {}).state.pendingActions "u" =
      none := by
  have h := not_connected_clears_pending
    { pendingActions :=
        [("u", { ts := 0, kind := "email", provider := "google",
                 payload := { «to» := "a@b.com" } })],
      providerTokens := [] }
    "u" 5 [{ role := "user", text := "Send it" }] none {}
    { ts := 0, kind := "email", provider := "google", payload := { «to» := "a@b.com" } }
    (by decide) (by decide) (Or.inl (by decide)) (by decide)
  exact ⟨h.2.1, h.2.2.2.1⟩

end Mindenu.Server

namespace Mindenu.Store

open Mindenu

/-- A flat provider-credential document, with `none` marking an absent
field (the OAuth callbacks write `access_token`, `refresh_token`,
`expires_in`, `scope`, `token_type`). -/
structure Credential where
  access_token : Option String := none
  refresh_token : Option String := none
  expires_in : Option Nat := none
  scope : Option String := none
  token_type : Option String := none
deriving DecidableEq, Repr

/-- One field under Firestore `set(..., { merge: true })`: a field present
in the update overwrites, an absent field keeps the stored value. -/
def mergeField {α : Type} (old upd : Option α) : Option α :=
  match upd with
  | some v => some v
  | none => old

/-- Firestore merge of a flat credential document. -/
def mergeCredential (old upd : Credential) : Credential :=
  { access_token := mergeField old.access_token upd.access_token,
    refresh_token := mergeField old.refresh_token upd.refresh_token,
    expires_in := mergeField old.expires_in upd.expires_in,
    scope := mergeField old.scope upd.scope,
    token_type := mergeField old.token_type upd.token_type }

/-- The `users/{uid}/tokens/{provider}` documents of the Firestore-backed
`tokenStore.js`. -/
structure TokenDb where
  docs : List ((String × String) × Credential) := []
deriving DecidableEq, Repr

/-- `getUserProviderTokens(uid, provider)` (tokenStore.js lines 14-18):
throws `No tokens found for provider=...` when the document is absent. -/
def getUserProviderTokens (db : TokenDb) (uid provider : String) :
    Except String Credential :=
  match lookupA db.docs (uid, provider) with
  | none => .error ("No tokens found for provider=" ++ provider)
  | some d => .ok d

/-- `setUserProviderTokens(uid, provider, tokens)` (tokenStore.js lines
20-22): `tokensRef.set(tokens, { merge: true })`. -/
def setUserProviderTokens (db : TokenDb) (uid provider : String) (tokens : Credential) :
    TokenDb :=
  { docs :=
      insertA db.docs (uid, provider)
        (match lookupA db.docs (uid, provider) with
         | none => tokens
         | some old => mergeCredential old tokens) }

/-- The `{type, payload}` pending-action document the v7 dispatcher
writes: a string `type` and a flat string-valued `payload` map. -/
structure PendingDoc where
  kind : Option String := none
  payload : Option (List (String × String)) := none
deriving DecidableEq, Repr

/-- Firestore merge of a flat string-valued map: keys present in the
update overwrite, other stored keys are preserved, new keys are added. -/
def mergeStrMap (old upd : List (String × String)) : List (String × String) :=
  (old.map fun kv =>
    match lookupA upd kv.1 with
    | some v => (kv.1, v)
    | none => kv) ++
  upd.filter fun kv => (lookupA old kv.1).isNone

/-- Firestore merge of a pending-action document (nested maps merge
recursively under `{ merge: true }`). -/
def mergePendingDoc (old upd : PendingDoc) : PendingDoc :=
  { kind := mergeField old.kind upd.kind,
    payload :=
      match old.payload, upd.payload with
      | some op, some up => some (mergeStrMap op up)
      | some op, none => some op
      | none, up => up }

/-- The `users/{uid}/pending/action` documents. -/
structure PendingDb where
  docs : List (String × PendingDoc) := []
deriving DecidableEq, Repr

/-- `setPendingAction(uid, action)` (tokenStore.js lines 30-32):
`pendingRef(uid).set(action, { merge: true })`. -/
def setPendingAction (db : PendingDb) (uid : String) (action : PendingDoc) : PendingDb :=
  { docs :=
      insertA db.docs uid
        (match lookupA db.docs uid with
         | none => action
         | some old => mergePendingDoc old action) }

/-- `getPendingAction(uid)` (tokenStore.js lines 24-28). -/
def getPendingAction (db : PendingDb) (uid : String) : Option PendingDoc :=
  lookupA db.docs uid

/-- `clearPendingAction(uid)` (tokenStore.js lines 34-36). -/
def clearPendingAction (db : PendingDb) (uid : String) : PendingDb :=
  { docs := eraseA db.docs uid }

/-- C5 failing input: proposing action A and then action B does NOT leave
exactly B — `set(action, { merge: true })` deep-merges, so A's
`location` field survives inside the stored payload. -/
theorem setPendingAction_merges_instead_of_replacing :
    getPendingAction
        (setPendingAction
          (setPendingAction { docs := [] } "u"
            { kind := some "create_calendar_event",
              payload := some
                [("summary", "Standup"), ("startISO", "2026-01-01T10:00:00Z"),
                 ("endISO", "2026-01-01T10:30:00Z"), ("location", "Room 5")] })
          "u"
          { kind := some "create_calendar_event",
            payload := some
              [("summary", "Focus time"), ("startISO", "2026-01-02T10:00:00Z"),
               ("endISO", "2026-01-02T11:00:00Z")] })
        "u" ≠
      some
        { kind := some "create_calendar_event",
          payload := some
            [("summary", "Focus time"), ("startISO", "2026-01-02T10:00:00Z"),
             ("endISO", "2026-01-02T11:00:00Z")] } ∧
    (getPendingAction
        (setPendingAction
          (setPendingAction { docs := [] } "u"
            { kind := some "create_calendar_event",
              payload := some
                [("summary", "Standup"), ("startISO", "2026-01-01T10:00:00Z"),
                 ("endISO", "2026-01-01T10:30:00Z"), ("location", "Room 5")] })
          "u"
          { kind := some "create_calendar_event",
            payload := some
              [("summary", "Focus time"), ("startISO", "2026-01-02T10:00:00Z"),
               ("endISO", "2026-01-02T11:00:00Z")] })
        "u").bind (fun d => d.payload.bind (fun pm => lookupA pm "location")) =
      some "Room 5" := by
  decide

/-- C8: a credential update that omits `refresh_token` keeps the stored
refresh token, while every field present in the update takes its new
value. -/
theorem saveCredential_preserves_refresh_token
    (db : TokenDb) (uid provider : String) (old upd : Credential) (r : String)
    (hold : lookupA db.docs (uid, provider) = some old)
    (hr : old.refresh_token = some r)
    (hupd : upd.refresh_token = none) :
    lookupA (setUserProviderTokens db uid provider upd).docs (uid, provider) =
      some (mergeCredential old upd) ∧
    (mergeCredential old upd).refresh_token = some r ∧
    (∀ v, upd.access_token = some v → (mergeCredential old upd).access_token = some v) ∧
    (∀ v, upd.expires_in = some v → (mergeCredential old upd).expires_in = some v) ∧
    (∀ v, upd.scope = some v → (mergeCredential old upd).scope = some v) ∧
    (∀ v, upd.token_type = some v → (mergeCredential old upd).token_type = some v) := by
  refine ⟨?_, ?_, ?_, ?_, ?_, ?_⟩
  · simp [setUserProviderTokens, hold, lookupA_insertA_self]
  · simp [mergeCredential, mergeField, hupd, hr]
  all_goals intro v hv; simp [mergeCredential, mergeField, hv]

/-- Witness for the C8 theorem: a stored Google credential with a refresh
token, updated by a record carrying only a fresh access token. -/
theorem saveCredential_preserves_refresh_token_witness :
    lookupA (setUserProviderTokens
        { docs := [(("u", "google"),
            { access_token := some "old-at", refresh_token := some "rt-1" })] }
        "u" "google" { access_token := some "new-at" }).docs ("u", "google") =
      some (mergeCredential
        { access_token := some "old-at", refresh_token := some "rt-1" }
        { access_token := some "new-at" }) ∧
    (mergeCredential
        { access_token := some "old-at", refresh_token := some "rt-1" }
        { access_token := some "new-at" }).refresh_token = some "rt-1" := by
  have h := saveCredential_preserves_refresh_token
    { docs := [(("u", "google"),
        { access_token := some "old-at", refresh_token := some "rt-1" })] }
    "u" "google"
    { access_token := some "old-at", refresh_token := some "rt-1" }
    { access_token := some "new-at" } "rt-1" (by decide) (by decide) (by decide)
  exact ⟨h.1, h.2.1⟩

/-- The `users/{uid}` documents of `firebaseAdmin.js`, as far as
credential lookup reads them: the per-provider `tokens` map. -/
structure UserDoc where
  tokens : List (String × Credential) := []
deriving DecidableEq, Repr

/-- The firebaseAdmin.js user collection. -/
structure FbDb where
  users : List (String × UserDoc) := []
deriving DecidableEq, Repr

/-- `getUser(uid)` (firebaseAdmin.js lines 113-116). -/
def getUser (db : FbDb) (uid : String) : Option UserDoc :=
  lookupA db.users uid

/-- `getProviderTokens(uid, provider)` (firebaseAdmin.js lines 122-126):
`user?.tokens?.[provider] || null`. -/
def getProviderTokens (db : FbDb) (uid provider : String) : Option Credential :=
  match getUser db uid with
  | none => none
  | some u => lookupA u.tokens provider

/-- C9 counterexample: with no stored credential, the tokenStore.js
lookup does not return null — it throws. -/
theorem getUserProviderTokens_throws_when_absent :
    getUserProviderTokens { docs := [] } "u" "google" =
      Except.error "No tokens found for provider=google" := by
  rfl

/-- C9 (amended): with no stored credential for `(uid, provider)`, the
firebaseAdmin.js lookup returns null, while the tokenStore.js lookup
instead throws `No tokens found for provider=...`. -/
theorem credential_lookup_when_absent
    (fb : FbDb) (store : TokenDb) (uid provider : String)
    (hfb : ∀ u, lookupA fb.users uid = some u → lookupA u.tokens provider = none)
    (hstore : lookupA store.docs (uid, provider) = none) :
    getProviderTokens fb uid provider = none ∧
    getUserProviderTokens store uid provider =
      Except.error ("No tokens found for provider=" ++ provider) := by
  constructor
  · unfold getProviderTokens getUser
    cases h : lookupA fb.users uid with
    | none => rfl
    | some u => exact hfb u h
  · simp [getUserProviderTokens, hstore]

/-- Witness for the amended C9 theorem: an empty user collection and an
empty token-document collection. -/
theorem credential_lookup_when_absent_witness :
    getProviderTokens { users := [] } "u" "google" = none ∧
    getUserProviderTokens { docs := [] } "u" "microsoft" =
      Except.error ("No tokens found for provider=" ++ "microsoft") := by
  have h1 := credential_lookup_when_absent { users := [] } { docs := [] } "u" "google"
    (fun u hu => by simp [Mindenu.lookupA] at hu) (by decide)
  have h2 := credential_lookup_when_absent { users := [] } { docs := [] } "u" "microsoft"
    (fun u hu => by simp [Mindenu.lookupA] at hu) (by decide)
  exact ⟨h1.1, h2.2⟩

end Mindenu.Store

namespace Mindenu.Server

/-- One entry of the `tools` array server.js offers to the model. -/
structure ToolDecl where
  name : String
  description : String
deriving DecidableEq, Repr

/-- The `tools` array of server.js (lines 425-461): the static schema
offered to the LLM on every non-confirmation chat turn. -/
def chatTools : List ToolDecl :=
  [ { name := "propose_calendar_event",
      description := "Propose a calendar event for user confirmation. Do NOT create it directly." },
    { name := "propose_email",
      description := "Propose an email draft for user confirmation. Do NOT send it directly." } ]

end Mindenu.Server

namespace Mindenu.V7

open Mindenu

/-- A stored Google token record as the v7 server reads it
(`getGoogleAuthForUid` checks `tokens?.refresh_token`). -/
structure GTokens where
  access_token : Option String := none
  refresh_token : Option String := none
deriving DecidableEq, Repr

/-- A parsed v7 tool-call arguments object (JSON; `none` = absent key). -/
structure ToolArgs where
  maxResults : Option Nat := none
  «to» : Option String := none
  subject : Option String := none
  body : Option String := none
  timeMinISO : Option String := none
  timeMaxISO : Option String := none
  summary : Option String := none
  description : Option String := none
  location : Option String := none
  startISO : Option String := none
  endISO : Option String := none
  timezone : Option String := none
  eventId : Option String := none
deriving DecidableEq, Repr

/-- Firestore merge of a flat arguments object (field-wise). -/
def mergeToolArgs (old upd : ToolArgs) : ToolArgs :=
  { maxResults := Store.mergeField old.maxResults upd.maxResults,
    «to» := Store.mergeField old.«to» upd.«to»,
    subject := Store.mergeField old.subject upd.subject,
    body := Store.mergeField old.body upd.body,
    timeMinISO := Store.mergeField old.timeMinISO upd.timeMinISO,
    timeMaxISO := Store.mergeField old.timeMaxISO upd.timeMaxISO,
    summary := Store.mergeField old.summary upd.summary,
    description := Store.mergeField old.description upd.description,
    location := Store.mergeField old.location upd.location,
    startISO := Store.mergeField old.startISO upd.startISO,
    endISO := Store.mergeField old.endISO upd.endISO,
    timezone := Store.mergeField old.timezone upd.timezone,
    eventId := Store.mergeField old.eventId upd.eventId }

/-- A pending-action document the v7 dispatcher writes:
`{ type, payload }` with `payload` the raw arguments object or `null`. -/
structure V7Pending where
  kind : Option String := none
  payload : Option ToolArgs := none
deriving DecidableEq, Repr

/-- Firestore merge of a v7 pending-action document (both written fields
are always present in a write, so a `null` payload overwrites and two
object payloads merge field-wise). -/
def mergeV7Pending (old upd : V7Pending) : V7Pending :=
  { kind := Store.mergeField old.kind upd.kind,
    payload :=
      match old.payload, upd.payload with
      | some op, some up => some (mergeToolArgs op up)
      | _, up => up }

/-- The persisted state the v7 chat server touches: provider tokens and
the per-user pending-action documents. -/
structure V7State where
  tokens : List ((String × String) × GTokens) := []
  pending : List (String × V7Pending) := []
deriving DecidableEq, Repr

/-- `getProviderTokens(uid, provider)`. -/
def getProviderTokens (st : V7State) (uid provider : String) : Option GTokens :=
  lookupA st.tokens (uid, provider)

/-- `setPendingAction(uid, action)`: `pendingRef(uid).set(action, { merge: true })`. -/
def setPendingAction (st : V7State) (uid : String) (action : V7Pending) : V7State :=
  { st with
    pending :=
      insertA st.pending uid
        (match lookupA st.pending uid with
         | none => action
         | some old => mergeV7Pending old action) }

/-- `getPendingAction(uid)`. -/
def getPendingAction (st : V7State) (uid : String) : Option V7Pending :=
  lookupA st.pending uid

/-- `clearPendingAction(uid)`. -/
def clearPendingAction (st : V7State) (uid : String) : V7State :=
  { st with pending := eraseA st.pending uid }

/-- `getGoogleAuthForUid(uid)` (part_014 lines 686-693): requires a
stored, truthy Google refresh token; `none` models the
`{ok: false, error: "unauthorized"}` result. -/
def getGoogleAuthForUid (st : V7State) (uid : String) : Option GTokens :=
  match getProviderTokens st uid "google" with
  | none => none
  | some t =>
      match Server.truthy t.refresh_token with
      | none => none
      | some _ => some t

/-- A Google provider call made by the v7 server. -/
inductive GCall where
  | gmailListLastN (maxResults : Nat)
  | gmailSend (toAddr subject bodyText : Option String)
  | calendarListEvents (timeMinISO timeMaxISO : String) (maxResults : Nat)
  | calendarCreateEvent (summary description location startISO endISO : Option String)
      (timezone : String)
  | calendarDeleteEvent (eventId : String)
deriving DecidableEq, Repr

/-- Whether a provider call mutates provider data (sends mail, creates or
deletes an event) rather than reading it. -/
def GCall.isMutation : GCall → Bool
  | .gmailSend _ _ _ => true
  | .calendarCreateEvent _ _ _ _ _ _ => true
  | .calendarDeleteEvent _ => true
  | _ => false

/-- `Number(x || d)` for an optional JSON number. -/
def jsOrNat (o : Option Nat) (d : Nat) : Nat :=
  match o with
  | some n => if n = 0 then d else n
  | none => d

/-- `String(x)` on an optional value (`String(undefined) = "undefined"`). -/
def jsString (o : Option String) : String :=
  o.getD "undefined"

/-- What one `dispatchToolCall` invocation did: whether it reported
`ok`, the state it left, and the provider calls it made. -/
structure DispatchOut where
  ok : Bool
  state : V7State
  calls : List GCall
deriving DecidableEq, Repr

/-- `dispatchToolCall({uid, name, args})` (part_014 lines 696-778).  The
result JSON (drafts, instructions) is dropped: the verified property
concerns only the state transition and the provider calls. -/
def dispatchToolCall (st : V7State) (uid name : String) (args : Option ToolArgs) :
    DispatchOut :=
  match getGoogleAuthForUid st uid with
  | none => { ok := false, state := st, calls := [] }
  | some _ =>
      match name with
      | "list_last_emails" =>
          { ok := true, state := st,
            calls := [.gmailListLastN (jsOrNat (args.bind (·.maxResults)) 3)] }
      | "draft_email" => { ok := true, state := st, calls := [] }
      | "send_email" =>
          { ok := true,
            state := setPendingAction st uid { kind := some "send_email", payload := args },
            calls := [] }
      | "list_calendar_events" =>
          { ok := true, state := st,
            calls :=
              [.calendarListEvents (jsString (args.bind (·.timeMinISO)))
                (jsString (args.bind (·.timeMaxISO)))
                (jsOrNat (args.bind (·.maxResults)) 20)] }
      | "propose_calendar_event" =>
          { ok := true,
            state := setPendingAction st uid
              { kind := some "create_calendar_event", payload := args },
            calls := [] }
      | "create_calendar_event" =>
          { ok := true,
            state := setPendingAction st uid
              { kind := some "create_calendar_event", payload := args },
            calls := [] }
      | "delete_calendar_event" =>
          { ok := true,
            state := setPendingAction st uid
              { kind := some "delete_calendar_event", payload := args },
            calls := [] }
      | _ => { ok := false, state := st, calls := [] }

/-- What one `executePendingAction` invocation did.  `executed = none`
models the `null` result (no pending action, or a pending action whose
type does not match the confirmation); `some false` models an
`{ok: false}` result. -/
structure ExecOut where
  executed : Option Bool
  state : V7State
  calls : List GCall
deriving DecidableEq, Repr

/-- `executePendingAction(uid, confirmType)` (part_014 lines 781-849).
The success-message strings (which embed provider results) are dropped;
state transitions and provider calls are kept exactly. -/
def executePendingAction (st : V7State) (uid confirm : String) : ExecOut :=
  match getPendingAction st uid with
  | none => { executed := none, state := st, calls := [] }
  | some pending =>
      if confirm = "send" ∧ pending.kind = some "send_email" then
        match getGoogleAuthForUid st uid with
        | none => { executed := some false, state := st, calls := [] }
        | some _ =>
            let p := pending.payload.getD {}
            { executed := some true, state := clearPendingAction st uid,
              calls := [.gmailSend p.«to» p.subject p.body] }
      else if confirm = "create" ∧ pending.kind = some "create_calendar_event" then
        match getGoogleAuthForUid st uid with
        | none => { executed := some false, state := st, calls := [] }
        | some _ =>
            let p := pending.payload.getD {}
            { executed := some true, state := clearPendingAction st uid,
              calls := [.calendarCreateEvent p.summary p.description p.location
                p.startISO p.endISO (Server.jsOr p.timezone "America/New_York")] }
      else if confirm = "delete" ∧ pending.kind = some "delete_calendar_event" then
        match getGoogleAuthForUid st uid with
        | none => { executed := some false, state := st, calls := [] }
        | some _ =>
            match Server.truthy ((pending.payload.getD {}).eventId) with
            | none =>
                { executed := some false, state := clearPendingAction st uid, calls := [] }
            | some eid =>
                { executed := some true, state := clearPendingAction st uid,
                  calls := [.calendarDeleteEvent eid] }
      else { executed := none, state := st, calls := [] }

/-- `normalizeConfirm(text)` (part_014 lines 560-566). -/
def normalizeConfirm (text : String) : Option String :=
  let t : String := ⟨(Server.trimChars text.data).map Char.toLower⟩
  if t = "send it" ∨ t = "send" then some "send"
  else if t = "create it" ∨ t = "create" then some "create"
  else if t = "delete it" ∨ t = "delete" then some "delete"
  else none

/-- One per-step OpenAI response of the v7 tool loop: the output text and
the tool calls (name and parsed arguments, `none` = malformed JSON). -/
structure LlmStep where
  assistantText : String := ""
  toolCalls : List (String × Option ToolArgs) := []

/-- The `for (const tc of toolCalls)` dispatch loop of one step. -/
def processToolCalls (st : V7State) (uid : String) :
    List (String × Option ToolArgs) → V7State × List GCall
  | [] => (st, [])
  | (name, args) :: rest =>
      let d := dispatchToolCall st uid name args
      let r := processToolCalls d.state uid rest
      (r.1, d.calls ++ r.2)

/-- The `for (let step = 0; step < 5; step++)` tool loop of
`runChatWithTools`, with the OpenAI response of step `i` supplied by the
oracle `steps`. -/
def chatLoop (uid : String) (steps : Nat → LlmStep) :
    Nat → Nat → V7State → V7State × List GCall
  | _, 0, st => (st, [])
  | i, fuel + 1, st =>
      let resp := steps i
      if Server.strTrim resp.assistantText ≠ "" ∧ resp.toolCalls = [] then (st, [])
      else if resp.toolCalls ≠ [] then
        let r := processToolCalls st uid resp.toolCalls
        let r' := chatLoop uid steps (i + 1) fuel r.1
        (r'.1, r.2 ++ r'.2)
      else (st, [])

/-- `runChatWithTools({uid, userText})` (part_014 lines 852-943): execute
a matching pending action when the text is a confirmation, otherwise run
the tool loop.  Returns the final state and every provider call made. -/
def runChatWithTools (st : V7State) (uid userText : String) (steps : Nat → LlmStep) :
    V7State × List GCall :=
  match normalizeConfirm userText with
  | some confirm =>
      let ex := executePendingAction st uid confirm
      match ex.executed with
      | some _ => (ex.state, ex.calls)
      | none => chatLoop uid steps 0 5 ex.state
  | none => chatLoop uid steps 0 5 st

theorem dispatchToolCall_no_mutation (st : V7State) (uid name : String)
    (args : Option ToolArgs) :
    ∀ c ∈ (dispatchToolCall st uid name args).calls, c.isMutation = false := by
  intro c hc
  revert hc
  unfold dispatchToolCall
  repeat' split
  all_goals intro hc
  all_goals simp_all [GCall.isMutation]

theorem processToolCalls_no_mutation (uid : String) :
    ∀ (tcs : List (String × Option ToolArgs)) (st : V7State),
      ∀ c ∈ (processToolCalls st uid tcs).2, c.isMutation = false := by
  intro tcs
  induction tcs with
  | nil => intro st c hc; simp [processToolCalls] at hc
  | cons tc rest ih =>
      intro st c hc
      obtain ⟨name, args⟩ := tc
      simp only [processToolCalls, List.mem_append] at hc
      rcases hc with hc | hc
      · exact dispatchToolCall_no_mutation st uid name args c hc
      · exact ih _ c hc

theorem chatLoop_no_mutation (uid : String) (steps : Nat → LlmStep) :
    ∀ (fuel i : Nat) (st : V7State),
      ∀ c ∈ (chatLoop uid steps i fuel st).2, c.isMutation = false := by
  intro fuel
  induction fuel with
  | zero => intro i st c hc; simp [chatLoop] at hc
  | succ n ih =>
      intro i st c hc
      simp only [chatLoop] at hc
      split at hc
      · simp at hc
      · split at hc
        · simp only [List.mem_append] at hc
          rcases hc with hc | hc
          · exact processToolCalls_no_mutation uid _ st c hc
          · exact ih _ _ c hc
        · simp at hc

end Mindenu.V7

namespace Mindenu.V7

/-- C2: the tool schema server.js offers contains only the two proposal
tools; handling any tool call the model emits never makes a provider
mutation call (the mutation-family tools only store a pending action);
and a chat message that is not a confirmation phrase can never cause a
provider mutation — mutations are reachable only through the
confirmation branch. -/
theorem proposal_only_tool_safety :
    (∀ t ∈ Server.chatTools,
        t.name = "propose_calendar_event" ∨ t.name = "propose_email") ∧
    (∀ (st : V7State) (uid name : String) (args : Option ToolArgs),
        ∀ c ∈ (dispatchToolCall st uid name args).calls, c.isMutation = false) ∧
    (∀ (st : V7State) (uid userText : String) (steps : Nat → LlmStep),
        normalizeConfirm userText = none →
        ∀ c ∈ (runChatWithTools st uid userText steps).2, c.isMutation = false) := by
  refine ⟨by decide, dispatchToolCall_no_mutation, ?_⟩
  intro st uid userText steps hconf c hc
  rw [runChatWithTools, hconf] at hc
  exact chatLoop_no_mutation uid steps 5 0 st c hc

/-- Witness for the C2 theorem: a `send_email` tool call with a connected
Google account makes no mutation call, and a plain chat message running
through the tool loop makes none either. -/
theorem proposal_only_tool_safety_witness :
    ({ name := "propose_email",
       description := "Propose an email draft for user confirmation. Do NOT send it directly." :
       Server.ToolDecl }.name = "propose_calendar_event" ∨
     ({ name := "propose_email",
        description := "Propose an email draft for user confirmation. Do NOT send it directly." :
        Server.ToolDecl }).name = "propose_email") ∧
    (∀ c ∈ (dispatchToolCall
        { tokens := [(("u", "google"), { refresh_token := some "rt" })], pending := [] }
        "u" "send_email"
        (some { «to» := some "a@b.com", subject := some "Hi", body := some "Hello" })).calls,
      c.isMutation = false) ∧
    (∀ c ∈ (runChatWithTools
        { tokens := [(("u", "google"), { refresh_token := some "rt" })], pending := [] }
        "u" "please email bob for me"
        (fun _ => { assistantText := "", toolCalls := [] })).2,
      c.isMutation = false) := by
  refine ⟨?_, ?_, ?_⟩
  · exact proposal_only_tool_safety.1
      { name := "propose_email",
        description := "Propose an email draft for user confirmation. Do NOT send it directly." }
      (by decide)
  · exact proposal_only_tool_safety.2.1
      { tokens := [(("u", "google"), { refresh_token := some "rt" })], pending := [] }
      "u" "send_email"
      (some { «to» := some "a@b.com", subject := some "Hi", body := some "Hello" })
  · exact proposal_only_tool_safety.2.2
      { tokens := [(("u", "google"), { refresh_token := some "rt" })], pending := [] }
      "u" "please email bob for me" (fun _ => { assistantText := "", toolCalls := [] })
      (by decide)

end Mindenu.V7

namespace Mindenu.B64

/-- The standard base64 alphabet (`Buffer.toString("base64")`), as ASCII
codes: `A–Z`, `a–z`, `0–9`, `+` (43), `/` (47). -/
def sextet (n : Nat) : Nat :=
  if n < 26 then 65 + n
  else if n < 52 then 97 + (n - 26)
  else if n < 62 then 48 + (n - 52)
  else if n = 62 then 43
  else 47

/-- Base64 encoding of a byte list, with `=` (61) padding, three input
bytes to four output codes. -/
def b64encode : List Nat → List Nat
  | [] => []
  | [a] => [sextet (a / 4), sextet (a % 4 * 16), 61, 61]
  | [a, b] => [sextet (a / 4), sextet (a % 4 * 16 + b / 16), sextet (b % 16 * 4), 61]
  | a :: b :: c :: rest =>
      sextet (a / 4) :: sextet (a % 4 * 16 + b / 16) ::
        sextet (b % 16 * 4 + c / 64) :: sextet (c % 64) :: b64encode rest

/-- `.replace(/\+/g, "-").replace(/\//g, "_")`: `+` (43) to `-` (45),
`/` (47) to `_` (95). -/
def urlMapCode (c : Nat) : Nat :=
  if c = 43 then 45 else if c = 47 then 95 else c

/-- `.replace(/=+$/g, "")`: drop the trailing run of `=` (61). -/
def dropTrailingEq (cs : List Nat) : List Nat :=
  (cs.reverse.dropWhile (fun c => c == 61)).reverse

/-- `base64UrlEncode(str)` (providerClients.js lines 156-162), over the
UTF-8 bytes of the input string. -/
def base64UrlEncode (bs : List Nat) : List Nat :=
  dropTrailingEq ((b64encode bs).map urlMapCode)

/-- The base64url value of one output code: the alphabet with `-` as 62
and `_` as 63. -/
def sextetVal (c : Nat) : Option Nat :=
  if 65 ≤ c ∧ c ≤ 90 then some (c - 65)
  else if 97 ≤ c ∧ c ≤ 122 then some (26 + (c - 97))
  else if 48 ≤ c ∧ c ≤ 57 then some (52 + (c - 48))
  else if c = 45 then some 62
  else if c = 95 then some 63
  else none

/-- Standard base64url decoding of an unpadded code list back to bytes
(the inverse the spec's round-trip property P5 refers to). -/
def b64urlDecode : List Nat → Option (List Nat)
  | [] => some []
  | [_] => none
  | [c1, c2] =>
      match sextetVal c1, sextetVal c2 with
      | some v1, some v2 => some [v1 * 4 + v2 / 16]
      | _, _ => none
  | [c1, c2, c3] =>
      match sextetVal c1, sextetVal c2, sextetVal c3 with
      | some v1, some v2, some v3 => some [v1 * 4 + v2 / 16, v2 % 16 * 16 + v3 / 4]
      | _, _, _ => none
  | c1 :: c2 :: c3 :: c4 :: rest =>
      match sextetVal c1, sextetVal c2, sextetVal c3, sextetVal c4, b64urlDecode rest with
      | some v1, some v2, some v3, some v4, some bs =>
          some ((v1 * 4 + v2 / 16) :: (v2 % 16 * 16 + v3 / 4) :: (v3 % 4 * 64 + v4) :: bs)
      | _, _, _, _, _ => none

theorem sextetVal_urlMapCode_sextet : ∀ n, n < 64 → sextetVal (urlMapCode (sextet n)) = some n := by
  decide

theorem urlMapCode_sextet_ne (n : Nat) :
    urlMapCode (sextet n) ≠ 43 ∧ urlMapCode (sextet n) ≠ 47 ∧ urlMapCode (sextet n) ≠ 61 := by
  unfold sextet urlMapCode
  repeat' split
  all_goals omega

theorem beq61_urlMapCode_sextet (n : Nat) :
    ((urlMapCode (sextet n)) == 61) = false := by
  have h := (urlMapCode_sextet_ne n).2.2
  simpa using h

theorem dropTrailingEq_concat_ne (xs : List Nat) (y : Nat) (h : (y == 61) = false) :
    dropTrailingEq (xs ++ [y]) = xs ++ [y] := by
  simp [dropTrailingEq, List.dropWhile_cons, h]

theorem dropTrailingEq_append_of_ne_nil (xs ys : List Nat)
    (h : dropTrailingEq ys ≠ []) :
    dropTrailingEq (xs ++ ys) = xs ++ dropTrailingEq ys := by
  unfold dropTrailingEq at h ⊢
  rw [List.reverse_append, List.dropWhile_append]
  have hne : (ys.reverse.dropWhile (fun c => c == 61)).isEmpty = false := by
    cases hh : ys.reverse.dropWhile (fun c => c == 61) with
    | nil => exact absurd (by simp [hh]) h
    | cons a l => rfl
  rw [hne]
  simp

theorem dropTrailingEq_ne_nil_of_mem (ys : List Nat) (x : Nat)
    (hx : x ∈ ys) (h : (x == 61) = false) :
    dropTrailingEq ys ≠ [] := by
  intro hnil
  unfold dropTrailingEq at hnil
  rw [List.reverse_eq_nil_iff, List.dropWhile_eq_nil_iff] at hnil
  have := hnil x (by simpa using hx)
  rw [h] at this
  exact Bool.noConfusion this

end Mindenu.B64

namespace Mindenu.B64

theorem b64encode_head (x : Nat) (rs : List Nat) :
    ∃ t, b64encode (x :: rs) = sextet (x / 4) :: t := by
  match rs with
  | [] => exact ⟨_, rfl⟩
  | [y] => exact ⟨_, rfl⟩
  | y :: z :: r => exact ⟨_, rfl⟩

theorem base64UrlEncode_cons3 (a b c : Nat) (rest : List Nat) :
    base64UrlEncode (a :: b :: c :: rest) =
      urlMapCode (sextet (a / 4)) :: urlMapCode (sextet (a % 4 * 16 + b / 16)) ::
        urlMapCode (sextet (b % 16 * 4 + c / 64)) :: urlMapCode (sextet (c % 64)) ::
        base64UrlEncode rest := by
  unfold base64UrlEncode
  cases rest with
  | nil =>
      show dropTrailingEq (List.map urlMapCode
        [sextet (a / 4), sextet (a % 4 * 16 + b / 16),
         sextet (b % 16 * 4 + c / 64), sextet (c % 64)]) = _
      rw [List.map_cons, List.map_cons, List.map_cons, List.map_cons, List.map_nil]
      rw [show ([urlMapCode (sextet (a / 4)), urlMapCode (sextet (a % 4 * 16 + b / 16)),
           urlMapCode (sextet (b % 16 * 4 + c / 64)), urlMapCode (sextet (c % 64))] : List Nat) =
          [urlMapCode (sextet (a / 4)), urlMapCode (sextet (a % 4 * 16 + b / 16)),
           urlMapCode (sextet (b % 16 * 4 + c / 64))] ++ [urlMapCode (sextet (c % 64))] from rfl]
      rw [dropTrailingEq_concat_ne _ _ (beq61_urlMapCode_sextet _)]
      rfl
  | cons x rs =>
      obtain ⟨t, ht⟩ := b64encode_head x rs
      have hmem : urlMapCode (sextet (x / 4)) ∈ List.map urlMapCode (b64encode (x :: rs)) := by
        rw [ht]; simp
      have hne := dropTrailingEq_ne_nil_of_mem _ _ hmem (beq61_urlMapCode_sextet _)
      show dropTrailingEq (List.map urlMapCode
        (sextet (a / 4) :: sextet (a % 4 * 16 + b / 16) ::
         sextet (b % 16 * 4 + c / 64) :: sextet (c % 64) :: b64encode (x :: rs))) = _
      rw [List.map_cons, List.map_cons, List.map_cons, List.map_cons]
      rw [show (urlMapCode (sextet (a / 4)) :: urlMapCode (sextet (a % 4 * 16 + b / 16)) ::
           urlMapCode (sextet (b % 16 * 4 + c / 64)) :: urlMapCode (sextet (c % 64)) ::
           List.map urlMapCode (b64encode (x :: rs))) =
          [urlMapCode (sextet (a / 4)), urlMapCode (sextet (a % 4 * 16 + b / 16)),
           urlMapCode (sextet (b % 16 * 4 + c / 64)), urlMapCode (sextet (c % 64))] ++
          List.map urlMapCode (b64encode (x :: rs)) from rfl]
      rw [dropTrailingEq_append_of_ne_nil _ _ hne]
      rfl

theorem b64url_decode_encode :
    ∀ (bs : List Nat), (∀ b ∈ bs, b < 256) → b64urlDecode (base64UrlEncode bs) = some bs
  | [], _ => rfl
  | [a], h => by
      have ha : a < 256 := h a (by simp)
      have h1 := sextetVal_urlMapCode_sextet (a / 4) (by omega)
      have h2 := sextetVal_urlMapCode_sextet (a % 4 * 16) (by omega)
      show b64urlDecode (dropTrailingEq (List.map urlMapCode (b64encode [a]))) = some [a]
      rw [show b64encode [a] = [sextet (a / 4), sextet (a % 4 * 16), 61, 61] from rfl]
      rw [show List.map urlMapCode [sextet (a / 4), sextet (a % 4 * 16), 61, 61] =
          [urlMapCode (sextet (a / 4)), urlMapCode (sextet (a % 4 * 16)), 61, 61] from rfl]
      have hd : dropTrailingEq
          [urlMapCode (sextet (a / 4)), urlMapCode (sextet (a % 4 * 16)), 61, 61] =
          [urlMapCode (sextet (a / 4)), urlMapCode (sextet (a % 4 * 16))] := by
        simp [dropTrailingEq, beq61_urlMapCode_sextet]
      rw [hd]
      simp only [b64urlDecode, h1, h2]
      have : a / 4 * 4 + a % 4 * 16 / 16 = a := by omega
      rw [this]
  | [a, b], h => by
      have ha : a < 256 := h a (by simp)
      have hb : b < 256 := h b (by simp)
      have h1 := sextetVal_urlMapCode_sextet (a / 4) (by omega)
      have h2 := sextetVal_urlMapCode_sextet (a % 4 * 16 + b / 16) (by omega)
      have h3 := sextetVal_urlMapCode_sextet (b % 16 * 4) (by omega)
      show b64urlDecode (dropTrailingEq (List.map urlMapCode (b64encode [a, b]))) = some [a, b]
      rw [show List.map urlMapCode (b64encode [a, b]) =
          [urlMapCode (sextet (a / 4)), urlMapCode (sextet (a % 4 * 16 + b / 16)),
           urlMapCode (sextet (b % 16 * 4)), 61] from rfl]
      have hd : dropTrailingEq
          [urlMapCode (sextet (a / 4)), urlMapCode (sextet (a % 4 * 16 + b / 16)),
           urlMapCode (sextet (b % 16 * 4)), 61] =
          [urlMapCode (sextet (a / 4)), urlMapCode (sextet (a % 4 * 16 + b / 16)),
           urlMapCode (sextet (b % 16 * 4))] := by
        simp [dropTrailingEq, beq61_urlMapCode_sextet]
      rw [hd]
      simp only [b64urlDecode, h1, h2, h3]
      have e1 : a / 4 * 4 + (a % 4 * 16 + b / 16) / 16 = a := by omega
      have e2 : (a % 4 * 16 + b / 16) % 16 * 16 + b % 16 * 4 / 4 = b := by omega
      rw [e1, e2]
  | (a :: b :: c :: rest), h => by
      have ha : a < 256 := h a (by simp)
      have hb : b < 256 := h b (by simp)
      have hc : c < 256 := h c (by simp)
      have ih := b64url_decode_encode rest (fun x hx => h x (by simp [hx]))
      have h1 := sextetVal_urlMapCode_sextet (a / 4) (by omega)
      have h2 := sextetVal_urlMapCode_sextet (a % 4 * 16 + b / 16) (by omega)
      have h3 := sextetVal_urlMapCode_sextet (b % 16 * 4 + c / 64) (by omega)
      have h4 := sextetVal_urlMapCode_sextet (c % 64) (by omega)
      rw [base64UrlEncode_cons3]
      simp only [b64urlDecode, h1, h2, h3, h4, ih]
      have e1 : a / 4 * 4 + (a % 4 * 16 + b / 16) / 16 = a := by omega
      have e2 : (a % 4 * 16 + b / 16) % 16 * 16 + (b % 16 * 4 + c / 64) / 4 = b := by omega
      have e3 : (b % 16 * 4 + c / 64) % 4 * 64 + c % 64 = c := by omega
      rw [e1, e2, e3]

end Mindenu.B64

namespace Mindenu.B64

theorem base64UrlEncode_one (a : Nat) :
    base64UrlEncode [a] =
      [urlMapCode (sextet (a / 4)), urlMapCode (sextet (a % 4 * 16))] := by
  show dropTrailingEq (List.map urlMapCode (b64encode [a])) = _
  rw [show List.map urlMapCode (b64encode [a]) =
      [urlMapCode (sextet (a / 4)), urlMapCode (sextet (a % 4 * 16)), 61, 61] from rfl]
  simp [dropTrailingEq, beq61_urlMapCode_sextet]

theorem base64UrlEncode_two (a b : Nat) :
    base64UrlEncode [a, b] =
      [urlMapCode (sextet (a / 4)), urlMapCode (sextet (a % 4 * 16 + b / 16)),
       urlMapCode (sextet (b % 16 * 4))] := by
  show dropTrailingEq (List.map urlMapCode (b64encode [a, b])) = _
  rw [show List.map urlMapCode (b64encode [a, b]) =
      [urlMapCode (sextet (a / 4)), urlMapCode (sextet (a % 4 * 16 + b / 16)),
       urlMapCode (sextet (b % 16 * 4)), 61] from rfl]
  simp [dropTrailingEq, beq61_urlMapCode_sextet]

theorem base64UrlEncode_chars :
    ∀ (bs : List Nat), ∀ x ∈ base64UrlEncode bs, x ≠ 43 ∧ x ≠ 47 ∧ x ≠ 61
  | [], x, hx => by simp [base64UrlEncode, dropTrailingEq, b64encode] at hx
  | [a], x, hx => by
      rw [base64UrlEncode_one] at hx
      simp only [List.mem_cons, List.not_mem_nil, or_false] at hx
      rcases hx with rfl | rfl
      · exact urlMapCode_sextet_ne _
      · exact urlMapCode_sextet_ne _
  | [a, b], x, hx => by
      rw [base64UrlEncode_two] at hx
      simp only [List.mem_cons, List.not_mem_nil, or_false] at hx
      rcases hx with rfl | rfl | rfl
      · exact urlMapCode_sextet_ne _
      · exact urlMapCode_sextet_ne _
      · exact urlMapCode_sextet_ne _
  | (a :: b :: c :: rest), x, hx => by
      rw [base64UrlEncode_cons3] at hx
      simp only [List.mem_cons] at hx
      rcases hx with rfl | rfl | rfl | rfl | hx
      · exact urlMapCode_sextet_ne _
      · exact urlMapCode_sextet_ne _
      · exact urlMapCode_sextet_ne _
      · exact urlMapCode_sextet_ne _
      · exact base64UrlEncode_chars rest x hx

/-- The byte codes of an ASCII string literal. -/
def asciiCodes (s : String) : List Nat :=
  s.data.map Char.toNat

/-- CRLF, the `\r\n` line separator of the raw MIME message. -/
def crlf : List Nat := [13, 10]

/-- The raw MIME message `googleSendEmail` builds (providerClients.js
lines 169-175), over the UTF-8 bytes of `to`, `subject` and `bodyText`. -/
def rawMimeMessage (toAddr subject bodyText : List Nat) : List Nat :=
  asciiCodes "To: " ++ toAddr ++ crlf ++
  asciiCodes "Subject: " ++ subject ++ crlf ++
  asciiCodes "Content-Type: text/plain; charset=\"UTF-8\"" ++ crlf ++
  asciiCodes "Content-Transfer-Encoding: 7bit" ++ crlf ++
  crlf ++
  bodyText ++ crlf

/-- The `raw` value `googleSendEmail` submits to the Gmail send endpoint
(providerClients.js line 183). -/
def googleSendEmailRaw (toAddr subject bodyText : List Nat) : List Nat :=
  base64UrlEncode (rawMimeMessage toAddr subject bodyText)

/-- `seg` occurs contiguously inside `xs`. -/
def containsSeg (xs seg : List Nat) : Prop :=
  ∃ l r, xs = l ++ seg ++ r

theorem rawMimeMessage_bytes_lt (toAddr subject bodyText : List Nat)
    (hto : ∀ x ∈ toAddr, x < 256) (hs : ∀ x ∈ subject, x < 256)
    (hb : ∀ x ∈ bodyText, x < 256) :
    ∀ x ∈ rawMimeMessage toAddr subject bodyText, x < 256 := by
  have hca : ∀ y ∈ crlf, y < 256 := by decide
  have h1 : ∀ y ∈ asciiCodes "To: ", y < 256 := by decide
  have h2 : ∀ y ∈ asciiCodes "Subject: ", y < 256 := by decide
  have h3 : ∀ y ∈ asciiCodes "Content-Type: text/plain; charset=\"UTF-8\"", y < 256 := by
    decide
  have h4 : ∀ y ∈ asciiCodes "Content-Transfer-Encoding: 7bit", y < 256 := by decide
  intro x hx
  simp only [rawMimeMessage, List.append_assoc, List.mem_append] at hx
  casesm* _ ∨ _
  all_goals
    first
    | exact hto x ‹_›
    | exact hs x ‹_›
    | exact hb x ‹_›
    | exact hca x ‹_›
    | exact h1 x ‹_›
    | exact h2 x ‹_›
    | exact h3 x ‹_›
    | exact h4 x ‹_›

/-- C7: the base64url payload `googleSendEmail` submits contains no `+`,
`/` or `=` (codes 43, 47, 61); base64url-decoding it yields exactly the
raw MIME message, which contains the supplied `To:` header line, the
supplied `Subject:` header line, and the supplied body text. -/
theorem sendMail_base64url_roundtrip (toAddr subject bodyText : List Nat)
    (hto : ∀ x ∈ toAddr, x < 256) (hs : ∀ x ∈ subject, x < 256)
    (hb : ∀ x ∈ bodyText, x < 256) :
    (∀ x ∈ googleSendEmailRaw toAddr subject bodyText, x ≠ 43 ∧ x ≠ 47 ∧ x ≠ 61) ∧
    b64urlDecode (googleSendEmailRaw toAddr subject bodyText) =
      some (rawMimeMessage toAddr subject bodyText) ∧
    containsSeg (rawMimeMessage toAddr subject bodyText)
      (asciiCodes "To: " ++ toAddr ++ crlf) ∧
    containsSeg (rawMimeMessage toAddr subject bodyText)
      (asciiCodes "Subject: " ++ subject ++ crlf) ∧
    containsSeg (rawMimeMessage toAddr subject bodyText) bodyText := by
  refine ⟨base64UrlEncode_chars _,
    b64url_decode_encode _ (rawMimeMessage_bytes_lt toAddr subject bodyText hto hs hb),
    ⟨[], asciiCodes "Subject: " ++ subject ++ crlf ++
      asciiCodes "Content-Type: text/plain; charset=\"UTF-8\"" ++ crlf ++
      asciiCodes "Content-Transfer-Encoding: 7bit" ++ crlf ++ crlf ++ bodyText ++ crlf,
      by simp [rawMimeMessage, List.append_assoc]⟩,
    ⟨asciiCodes "To: " ++ toAddr ++ crlf,
      asciiCodes "Content-Type: text/plain; charset=\"UTF-8\"" ++ crlf ++
      asciiCodes "Content-Transfer-Encoding: 7bit" ++ crlf ++ crlf ++ bodyText ++ crlf,
      by simp [rawMimeMessage, List.append_assoc]⟩,
    ⟨asciiCodes "To: " ++ toAddr ++ crlf ++
      asciiCodes "Subject: " ++ subject ++ crlf ++
      asciiCodes "Content-Type: text/plain; charset=\"UTF-8\"" ++ crlf ++
      asciiCodes "Content-Transfer-Encoding: 7bit" ++ crlf ++ crlf,
      crlf,
      by simp [rawMimeMessage, List.append_assoc]⟩⟩

/-- Witness for the C7 theorem on the concrete input
`{to: "a@b.com", subject: "Hi", bodyText: "Hello"}`. -/
theorem sendMail_base64url_roundtrip_witness :
    b64urlDecode (googleSendEmailRaw (asciiCodes "a@b.com") (asciiCodes "Hi")
        (asciiCodes "Hello")) =
      some (rawMimeMessage (asciiCodes "a@b.com") (asciiCodes "Hi") (asciiCodes "Hello")) ∧
    containsSeg (rawMimeMessage (asciiCodes "a@b.com") (asciiCodes "Hi") (asciiCodes "Hello"))
      (asciiCodes "Hello") := by
  have h := sendMail_base64url_roundtrip (asciiCodes "a@b.com") (asciiCodes "Hi")
    (asciiCodes "Hello") (by decide) (by decide) (by decide)
  exact ⟨h.2.1, h.2.2.2.2⟩

end Mindenu.B64
